import Mathlib

/-!
Verification of the `TFSaver` component
(`ml-agents/mlagents/trainers/saver/tf_saver.py`).

The Python class is shallowly embedded: the saver object becomes a Lean
structure, the TensorFlow checkpoint store on disk becomes an explicit
association-list state, method calls become pure functions returning
`Except PyError`, and side effects (checkpoint writes, graph writes,
exports, log lines) are recorded in an explicit effect trace.
-/

/-- An observable side effect of a saver operation, in program order. -/
inductive Effect where
  /-- A TensorFlow checkpoint write (`self.saver.save(self.sess, path)`). -/
  | saveCkpt (path : String)
  /-- A raw graph-definition write
  (`tf.train.write_graph(graph, dir, name, as_text)`). -/
  | writeGraph (dir : String) (name : String) (asText : Bool)
  /-- An export of the policy model
  (`export_policy_model(output_filepath, settings, graph, sess)`),
  where `settingsTag` identifies the `SerializationSettings` passed. -/
  | exportModel (path : String) (settingsTag : Nat)
  /-- A `logger.info(msg)` call. -/
  | logInfo (msg : String)
  /-- A `logger.warning(msg)` call. -/
  | logWarning (msg : String)
deriving DecidableEq, Repr

/-- A Python exception escaping a saver method. -/
inductive PyError where
  /-- A successfully constructed exception object of class `className`
  with message `msg` (here: `UnityPolicyException`, had its name resolved). -/
  | raisedAs (className : String) (msg : String)
  /-- A `NameError`: the identifier `name` was evaluated (e.g. in a `raise`
  statement) but is not bound in any enclosing scope. -/
  | nameError (name : String)
  /-- An `AttributeError`, e.g. attribute access on `None`. -/
  | attributeError (msg : String)
deriving DecidableEq, Repr

instance {ε α : Type} [DecidableEq ε] [DecidableEq α] :
    DecidableEq (Except ε α) := fun a b =>
  match a, b with
  | .ok x, .ok y =>
    if h : x = y then .isTrue (by rw [h]) else .isFalse (by simp [h])
  | .error x, .error y =>
    if h : x = y then .isTrue (by rw [h]) else .isFalse (by simp [h])
  | .ok _, .error _ => .isFalse (by simp)
  | .error _, .ok _ => .isFalse (by simp)

/-- Modelled from the spec: `SerializationSettings`
(`mlagents.model_serialization`, not under `src/`) is opaque configuration
"describing desired export formats and target capability flags"; only its
identity matters here. -/
structure SerializationSettings where
  tag : Nat
deriving DecidableEq, Repr

/-- Modelled from the spec: `BehaviorSpec` (`mlagents_envs.base_env`, not
under `src/`) is opaque here; `TFSaver.__init__` receives and ignores it. -/
structure BehaviorSpec where
  tag : Nat
deriving DecidableEq, Repr

/-- The fields of `TrainerSettings` (`mlagents.trainers.settings`, not under
`src/`) that `TFSaver.__init__` reads: `init_path` and `keep_checkpoints`. -/
structure TrainerSettings where
  init_path : Option String
  keep_checkpoints : Nat
deriving DecidableEq, Repr

/-- The slice of a `TFPolicy` instance that the saver interacts with:
the graph and session handles (opaque tokens), the trainable parameter
values held in the session, the global step counter, and the evaluated
values of the version tensors (`None` when the graph has none). -/
structure TFPolicy where
  graph : Nat
  sess : Nat
  params : List Int
  step : Nat
  version_tensors : Option (Nat × Nat × Nat)
deriving DecidableEq, Repr

/-- A `tf.train.Saver` handle, retaining its `max_to_keep` argument. -/
structure TrainSaver where
  max_to_keep : Nat
deriving DecidableEq, Repr

/-- The checkpoint state that `tf.train.get_checkpoint_state(model_path)`
finds for a directory: the latest checkpoint file path and the session
state it snapshots (parameters, step, version-tensor values), plus a flag
`restoreNotFound` modelling whether `saver.restore` of this checkpoint
raises `tf.errors.NotFoundError` (a structural mismatch with the graph). -/
structure CkptData where
  model_checkpoint_path : String
  params : List Int
  step : Nat
  version : Option (Nat × Nat × Nat)
  restoreNotFound : Bool
deriving DecidableEq, Repr

/-- The durable state behind the framework calls: checkpoint state per
directory (`tf.train.get_checkpoint_state`) and the list of checkpoint
files currently retained per directory (pruned to `max_to_keep`). -/
structure FS where
  ckpts : List (String × CkptData)
  recent : List (String × List String)
deriving DecidableEq, Repr

/-- The saver object: fields assigned in `TFSaver.__init__` and
`TFSaver.register`. `policy`, `graph`, `sess`, `saver` start as `None`. -/
structure TFSaver where
  model_path : String
  initialize_path : Option String
  keep_checkpoints : Nat
  load : Bool
  policy : Option TFPolicy
  graph : Option Nat
  sess : Option Nat
  saver : Option TrainSaver
deriving DecidableEq, Repr

/-- The names bound at module scope of `tf_saver.py`: one per imported
name in its eleven `import` lines, plus the two top-level definitions
(`logger`, `TFSaver`). A `raise C(...)` statement first evaluates the
identifier `C` against this scope. -/
def tf_saver_module_globals : List String :=
  ["Tuple", "LooseVersion", "UnityException", "get_logger", "tf",
   "Saver", "SerializationSettings", "export_policy_model",
   "BehaviorSpec", "TrainerSettings", "TFPolicy", "__version__",
   "logger", "TFSaver"]

/-- Python semantics of `raise name(msg)` at module scope of
`tf_saver.py`: if `name` is bound, the named exception is constructed and
raised; otherwise evaluating the identifier itself raises `NameError`. -/
def raiseFromModule (name : String) (msg : String) : PyError :=
  if tf_saver_module_globals.contains name then PyError.raisedAs name msg
  else PyError.nameError name

/-- Modelled from the spec: `mlagents.trainers.__version__` (not under
`src/`), the current runtime version string compared at load time. Its
concrete value is irrelevant to the claims. -/
def trainers_version : String := "0.18.0"

/-- Splits a character list on a separator character; the resulting list
is always nonempty (splitting the empty text gives one empty piece). -/
def splitOnChar (sep : Char) : List Char → List (List Char)
  | [] => [[]]
  | c :: cs =>
    match splitOnChar sep cs with
    | [] => [[c]]
    | w :: ws => if c = sep then [] :: w :: ws else (c :: w) :: ws

/-- Decimal value of a digit string (as Python `int` on version parts). -/
def natOfChars (cs : List Char) : Nat :=
  cs.foldl (fun acc c => acc * 10 + (c.toNat - 48)) 0

/-- Modelled from the spec: `TFPolicy._convert_version_string`
(`mlagents.trainers.policy.tf_policy`, not under `src/`) turns the version
string into the numeric tuple the embedded version tensors are compared
against ("Version string embedded/compared at load time"). -/
def _convert_version_string (version : String) : Nat × Nat × Nat :=
  match (splitOnChar '.' version.data).map natOfChars with
  | a :: b :: c :: _ => (a, b, c)
  | [a, b] => (a, b, 0)
  | [a] => (a, 0, 0)
  | [] => (0, 0, 0)

/-- Modelled from the spec: `TFPolicy._initialize_graph` (not under
`src/`) "initializes fresh" — the session variables get fresh initial
values and the global step variable starts at zero. It touches no disk
state. -/
def TFPolicy._initialize_graph (pol : TFPolicy) : TFPolicy :=
  { pol with params := pol.params.map (fun _ => 0), step := 0 }

/-- The directory component of a path, as TensorFlow's checkpoint
machinery uses it: everything before the last `/`. -/
def dirname (p : String) : String :=
  String.intercalate "/"
    (((splitOnChar '/' p.data).dropLast).map fun w => String.mk w)

/-- `tf.train.get_checkpoint_state(model_path)`: the checkpoint state
recorded for the directory, or `None` if there is none. -/
def getCheckpointState (fs : FS) (model_path : String) : Option CkptData :=
  fs.ckpts.lookup model_path

/-- `tf.train.Saver.save(sess, save_path)` as the framework documents it:
writes a checkpoint of the current session state at `save_path`, updates
the checkpoint state of `dirname save_path` to point at it, and prunes the
retained checkpoint files of that directory to the most recent
`max_to_keep`. -/
def saverSave (sv : TrainSaver) (pol : TFPolicy) (fs : FS)
    (save_path : String) : FS × List Effect :=
  let d := dirname save_path
  let data : CkptData :=
    { model_checkpoint_path := save_path, params := pol.params,
      step := pol.step, version := pol.version_tensors,
      restoreNotFound := false }
  let old := (fs.recent.lookup d).getD []
  let appended := old ++ [save_path]
  let kept := appended.drop (appended.length - sv.max_to_keep)
  ({ ckpts := (d, data) :: fs.ckpts, recent := (d, kept) :: fs.recent },
   [Effect.saveCkpt save_path])

/-- The message of the exception `_load_graph` attempts to raise when
`get_checkpoint_state` finds nothing; names the offending path. -/
def missing_ckpt_msg (model_path : String) : String :=
  "The model " ++ model_path ++ " could not be loaded. Make "
    ++ "sure you specified the right "
    ++ "--run-id and that the previous run you are loading from had the same "
    ++ "behavior names."

/-- The message of the exception `_load_graph` attempts to raise when
`saver.restore` raises `tf.errors.NotFoundError`; names the path. -/
def restore_failed_msg (model_path : String) : String :=
  "The model " ++ model_path ++ " was found but could not be loaded. Make "
    ++ "sure the model is from the same version of ML-Agents, has the same behavior parameters, "
    ++ "and is using the same trainer configuration as the current run."

/-- The warning `_check_model_version` logs on a version difference. -/
def version_warning_msg (loaded_ver : Nat × Nat × Nat) (version : String) :
    String :=
  "The model checkpoint you are loading from was saved with ML-Agents version "
    ++ toString loaded_ver.1 ++ "." ++ toString loaded_ver.2.1 ++ "."
    ++ toString loaded_ver.2.2
    ++ " but your current ML-Agentsversion is " ++ version
    ++ ". Model may not behave properly."

/-- The effect of `self.saver.restore(self.sess, ckpt.model_checkpoint_path)`
on the policy's session state: parameter values, the global step variable
and the version-tensor values all take the checkpointed values (the graph
keeps having version tensors or not, as before). -/
def restoredPolicy (pol : TFPolicy) (ckpt : CkptData) : TFPolicy :=
  { pol with params := ckpt.params, step := ckpt.step,
             version_tensors :=
               if pol.version_tensors.isSome then ckpt.version else none }

namespace TFSaver

set_option linter.unusedVariables false in
/-- `TFSaver.__init__(behavior_spec, trainer_settings, model_path, load)`;
the behavior spec is received and ignored, as in the source. -/
def init (behavior_spec : BehaviorSpec) (trainer_settings : TrainerSettings)
    (model_path : String) (load : Bool := false) : TFSaver :=
  { model_path := model_path
    initialize_path := trainer_settings.init_path
    keep_checkpoints := trainer_settings.keep_checkpoints
    load := load
    policy := none, graph := none, sess := none, saver := none }

/-- `TFSaver.unregistered` (property): `self.policy is None`. -/
def unregistered (s : TFSaver) : Bool :=
  s.policy.isNone

/-- `TFSaver.register(module)`: no-op when `module is None`; otherwise
binds `policy`, copies its `graph` and `sess`, and constructs a
`tf.train.Saver(max_to_keep=self._keep_checkpoints)`. -/
def register (s : TFSaver) (module : Option TFPolicy) : TFSaver :=
  match module with
  | none => s
  | some m =>
    { s with policy := some m, graph := some m.graph, sess := some m.sess,
             saver := some { max_to_keep := s.keep_checkpoints } }

/-- `TFSaver.export(output_filepath, settings)`: calls
`export_policy_model(output_filepath, settings, self.graph, self.sess)`
(external; modelled as a single export effect). -/
def «export» (output_filepath : String) (settings : SerializationSettings) :
    List Effect :=
  [Effect.exportModel output_filepath settings.tag]

/-- `TFSaver.save_checkpoint(checkpoint_path, settings)`: inside
`self.graph.as_default()` (an `AttributeError` on `None`), saves the TF
checkpoint at `checkpoint_path + ".ckpt"` when `self.saver` is truthy,
writes `raw_graph_def.pb` (binary) into `self.model_path`, and then calls
`self.export(checkpoint_path, settings)`. -/
def save_checkpoint (s : TFSaver) (fs : FS) (checkpoint_path : String)
    (settings : SerializationSettings) :
    Except PyError (FS × List Effect) :=
  match s.graph, s.sess, s.policy with
  | some _, some _, some pol =>
    let saved :=
      match s.saver with
      | some sv => saverSave sv pol fs (checkpoint_path ++ ".ckpt")
      | none => (fs, [])
    let ev2 := [Effect.writeGraph s.model_path "raw_graph_def.pb" false]
    .ok (saved.1, saved.2 ++ ev2 ++ TFSaver.«export» checkpoint_path settings)
  | _, _, _ =>
    .error (.attributeError "NoneType object has no attribute")

/-- `TFSaver._check_model_version(version)`: when the policy has version
tensors, evaluates them and compares with
`TFPolicy._convert_version_string(version)`; on a difference it only logs
a warning. It is total: it raises nothing. -/
def _check_model_version (pol : TFPolicy) (version : String) : List Effect :=
  match pol.version_tensors with
  | none => []
  | some loaded_ver =>
    if loaded_ver ≠ _convert_version_string version then
      [Effect.logWarning (version_warning_msg loaded_ver version)]
    else []

/-- `TFSaver._load_graph(model_path, reset_global_steps)`: inside
`self.graph.as_default()`, looks up the checkpoint state; if `None`,
executes `raise UnityPolicyException("The model {} could not be
loaded...")`; if `saver.restore` raises `tf.errors.NotFoundError`,
executes `raise UnityPolicyException("The model {} was found but could
not be loaded...")`; a `raise` first resolves its class name against the
module scope (`raiseFromModule`). On success it restores the session
state, runs `_check_model_version(__version__)`, and either resets the
step to 0 (`self.policy._set_step(0)`) or logs the resumed step. -/
def _load_graph (s : TFSaver) (fs : FS) (model_path : String)
    (reset_global_steps : Bool := false) :
    Except PyError (TFSaver × List Effect) :=
  match s.graph, s.saver, s.sess, s.policy with
  | some _, some _, some _, some pol =>
    let ev0 := [Effect.logInfo ("Loading model from " ++ model_path ++ ".")]
    match getCheckpointState fs model_path with
    | none =>
      .error (raiseFromModule "UnityPolicyException" (missing_ckpt_msg model_path))
    | some ckpt =>
      if ckpt.restoreNotFound then
        .error (raiseFromModule "UnityPolicyException" (restore_failed_msg model_path))
      else
        let pol1 : TFPolicy := restoredPolicy pol ckpt
        let ev1 := _check_model_version pol1 trainers_version
        if reset_global_steps then
          .ok ({ s with policy := some { pol1 with step := 0 } },
            ev0 ++ ev1 ++
              [Effect.logInfo ("Starting training from step 0 and saving to "
                ++ s.model_path ++ ".")])
        else
          .ok ({ s with policy := some pol1 },
            ev0 ++ ev1 ++
              [Effect.logInfo ("Resuming training from step "
                ++ toString pol1.step ++ ".")])
  | _, _, _, _ =>
    .error (.attributeError "NoneType object has no attribute")

/-- `TFSaver.maybe_load()`: `reset_steps = not self.load`; loads from
`initialize_path` when that is set, else from `model_path` when `load`
is set, else calls `self.policy._initialize_graph()`. -/
def maybe_load (s : TFSaver) (fs : FS) :
    Except PyError (TFSaver × List Effect) :=
  let reset_steps := !s.load
  match s.initialize_path with
  | some p => s._load_graph fs p reset_steps
  | none =>
    if s.load then s._load_graph fs s.model_path reset_steps
    else
      match s.policy with
      | some pol =>
        .ok ({ s with policy := some pol._initialize_graph }, [])
      | none =>
        .error (.attributeError "NoneType object has no attribute")

end TFSaver

/-- The step counter of the policy held by a saver, when registered. -/
def stepOf (s : TFSaver) : Option Nat :=
  s.policy.map (fun p => p.step)

/-- The parameter values of the policy held by a saver, when registered. -/
def paramsOf (s : TFSaver) : Option (List Int) :=
  s.policy.map (fun p => p.params)

/-- A saver is registered when all four fields set by `register` are
non-`None`. -/
def registeredP (s : TFSaver) : Prop :=
  s.policy.isSome ∧ s.graph.isSome ∧ s.sess.isSome ∧ s.saver.isSome

instance (s : TFSaver) : Decidable (registeredP s) := by
  unfold registeredP; infer_instance

/- Concrete fixtures used by witnesses and counterexamples. -/

/-- A concrete policy instance. -/
def demoPolicy : TFPolicy :=
  { graph := 1, sess := 1, params := [3, -5], step := 7,
    version_tensors := some (0, 17, 0) }

/-- A concrete saver: `init_path` set, `load=True`, registered. -/
def demoSaver : TFSaver :=
  (TFSaver.init ⟨0⟩ { init_path := some "runs/ft", keep_checkpoints := 5 }
    "runs/cur" true).register (some demoPolicy)

/-- A concrete checkpoint recorded under the initialization path. -/
def demoCkpt : CkptData :=
  { model_checkpoint_path := "runs/ft/model-11.ckpt", params := [2, 4],
    step := 11, version := some (0, 17, 0), restoreNotFound := false }

/-- A concrete disk state: a checkpoint exists under `runs/ft` only. -/
def demoFS : FS :=
  { ckpts := [("runs/ft", demoCkpt)],
    recent := [("runs/ft", ["runs/ft/model-11.ckpt"])] }

/-- Concrete serialization settings. -/
def demoSettings : SerializationSettings := ⟨3⟩

/-- The saver state produced by `demoSaver.maybe_load demoFS`. -/
def demoLoadedSaver : TFSaver :=
  { demoSaver with policy := some { demoPolicy with params := [2, 4], step := 11 } }

/-- The effect trace produced by `demoSaver.maybe_load demoFS`. -/
def demoTraceML : List Effect :=
  [Effect.logInfo "Loading model from runs/ft.",
   Effect.logWarning (version_warning_msg (0, 17, 0) trainers_version),
   Effect.logInfo "Resuming training from step 11."]

/-- A checkpoint whose restore raises `tf.errors.NotFoundError`. -/
def demoBadCkpt : CkptData :=
  { model_checkpoint_path := "runs/old/model-3.ckpt", params := [9],
    step := 3, version := some (0, 16, 0), restoreNotFound := true }

/-- A disk state whose only checkpoint fails to restore structurally. -/
def demoFS2 : FS :=
  { ckpts := [("runs/old", demoBadCkpt)],
    recent := [("runs/old", ["runs/old/model-3.ckpt"])] }

/-- A registered saver in a resuming configuration: no `init_path`,
`load=True`. -/
def demoSaver2 : TFSaver :=
  (TFSaver.init ⟨0⟩ { init_path := none, keep_checkpoints := 5 }
    "runs/cur" true).register (some demoPolicy)

/-- The checkpoint that `demoSaver2.save_checkpoint` records. -/
def demoSavedCkpt : CkptData :=
  { model_checkpoint_path := "runs/cur/model-7.ckpt", params := [3, -5],
    step := 7, version := some (0, 17, 0), restoreNotFound := false }

/-- The disk state after
`demoSaver2.save_checkpoint demoFS "runs/cur/model-7" demoSettings`. -/
def demoFS3 : FS :=
  { ckpts := [("runs/cur", demoSavedCkpt), ("runs/ft", demoCkpt)],
    recent := [("runs/cur", ["runs/cur/model-7.ckpt"]),
               ("runs/ft", ["runs/ft/model-11.ckpt"])] }

/-- The effect trace of that `save_checkpoint` call. -/
def demoTrace3 : List Effect :=
  [Effect.saveCkpt "runs/cur/model-7.ckpt",
   Effect.writeGraph "runs/cur" "raw_graph_def.pb" false,
   Effect.exportModel "runs/cur/model-7" 3]

/- Helper lemmas shared by several claim theorems. -/

/-- Characterization of `_load_graph` on a registered saver when the
checkpoint state exists and the restore succeeds. -/
theorem load_graph_eq_ok (s : TFSaver) (fs : FS) (mp : String) (r : Bool)
    (g se : Nat) (sv : TrainSaver) (pol : TFPolicy) (ckpt : CkptData)
    (hg : s.graph = some g) (hsv : s.saver = some sv)
    (hse : s.sess = some se) (hp : s.policy = some pol)
    (hc : getCheckpointState fs mp = some ckpt)
    (hnf : ckpt.restoreNotFound = false) :
    s._load_graph fs mp r =
      .ok ({ s with policy := some (if r then { restoredPolicy pol ckpt with step := 0 }
                                    else restoredPolicy pol ckpt) },
        [Effect.logInfo ("Loading model from " ++ mp ++ ".")]
          ++ TFSaver._check_model_version (restoredPolicy pol ckpt) trainers_version
          ++ [Effect.logInfo (if r then
               "Starting training from step 0 and saving to " ++ s.model_path ++ "."
             else
               "Resuming training from step "
                 ++ toString (restoredPolicy pol ckpt).step ++ ".")]) := by
  cases r <;> simp [TFSaver._load_graph, hg, hsv, hse, hp, hc, hnf]

/-- Characterization of `_load_graph` on a registered saver when the
checkpoint state is missing. -/
theorem load_graph_eq_missing (s : TFSaver) (fs : FS) (mp : String) (r : Bool)
    (g se : Nat) (sv : TrainSaver) (pol : TFPolicy)
    (hg : s.graph = some g) (hsv : s.saver = some sv)
    (hse : s.sess = some se) (hp : s.policy = some pol)
    (hc : getCheckpointState fs mp = none) :
    s._load_graph fs mp r =
      .error (raiseFromModule "UnityPolicyException" (missing_ckpt_msg mp)) := by
  simp [TFSaver._load_graph, hg, hsv, hse, hp, hc]

/-- Characterization of `_load_graph` on a registered saver when the
checkpoint exists but the restore raises `NotFoundError`. -/
theorem load_graph_eq_notfound (s : TFSaver) (fs : FS) (mp : String) (r : Bool)
    (g se : Nat) (sv : TrainSaver) (pol : TFPolicy) (ckpt : CkptData)
    (hg : s.graph = some g) (hsv : s.saver = some sv)
    (hse : s.sess = some se) (hp : s.policy = some pol)
    (hc : getCheckpointState fs mp = some ckpt)
    (hnf : ckpt.restoreNotFound = true) :
    s._load_graph fs mp r =
      .error (raiseFromModule "UnityPolicyException" (restore_failed_msg mp)) := by
  simp [TFSaver._load_graph, hg, hsv, hse, hp, hc, hnf]

/-- `UnityPolicyException` is not among the names bound at module scope
of `tf_saver.py`, so `raiseFromModule` on it yields a `NameError`. -/
theorem raiseFromModule_upe (msg : String) :
    raiseFromModule "UnityPolicyException" msg =
      PyError.nameError "UnityPolicyException" := by
  simp [raiseFromModule, tf_saver_module_globals]

/-- On success with `reset_global_steps` true, the resulting step is 0;
with it false, the step is the checkpointed one, and parameters always
come from the checkpoint. -/
theorem load_graph_ok_step (s : TFSaver) (fs : FS) (mp : String) (r : Bool)
    (s' : TFSaver) (ev : List Effect)
    (h : s._load_graph fs mp r = .ok (s', ev)) :
    ∃ ckpt, getCheckpointState fs mp = some ckpt ∧
      ckpt.restoreNotFound = false ∧
      stepOf s' = some (if r then 0 else ckpt.step) ∧
      paramsOf s' = some ckpt.params := by
  cases hg : s.graph with
  | none => simp [TFSaver._load_graph, hg] at h
  | some g =>
  cases hsv : s.saver with
  | none => simp [TFSaver._load_graph, hg, hsv] at h
  | some sv =>
  cases hse : s.sess with
  | none => simp [TFSaver._load_graph, hg, hsv, hse] at h
  | some se =>
  cases hp : s.policy with
  | none => simp [TFSaver._load_graph, hg, hsv, hse, hp] at h
  | some pol =>
  cases hc : getCheckpointState fs mp with
  | none => simp [TFSaver._load_graph, hg, hsv, hse, hp, hc] at h
  | some ckpt =>
  cases hnf : ckpt.restoreNotFound with
  | true => simp [TFSaver._load_graph, hg, hsv, hse, hp, hc, hnf] at h
  | false =>
    refine ⟨ckpt, rfl, hnf, ?_⟩
    rw [load_graph_eq_ok s fs mp r g se sv pol ckpt hg hsv hse hp hc hnf] at h
    cases r <;>
    · obtain ⟨h1, -⟩ := by simpa using h
      simp [stepOf, paramsOf, restoredPolicy, ← h1]

/-- `_load_graph` never clears the registration fields: on success `graph`,
`sess`, `saver` and the constructor-set fields are unchanged and the
policy stays bound. -/
theorem load_graph_ok_frame (s : TFSaver) (fs : FS) (mp : String) (r : Bool)
    (s' : TFSaver) (ev : List Effect)
    (h : s._load_graph fs mp r = .ok (s', ev)) :
    s'.graph = s.graph ∧ s'.sess = s.sess ∧ s'.saver = s.saver ∧
    s'.model_path = s.model_path ∧ s'.initialize_path = s.initialize_path ∧
    s'.keep_checkpoints = s.keep_checkpoints ∧ s'.load = s.load ∧
    s'.policy.isSome = true := by
  cases hg : s.graph with
  | none => simp [TFSaver._load_graph, hg] at h
  | some g =>
  cases hsv : s.saver with
  | none => simp [TFSaver._load_graph, hg, hsv] at h
  | some sv =>
  cases hse : s.sess with
  | none => simp [TFSaver._load_graph, hg, hsv, hse] at h
  | some se =>
  cases hp : s.policy with
  | none => simp [TFSaver._load_graph, hg, hsv, hse, hp] at h
  | some pol =>
  cases hc : getCheckpointState fs mp with
  | none => simp [TFSaver._load_graph, hg, hsv, hse, hp, hc] at h
  | some ckpt =>
  cases hnf : ckpt.restoreNotFound with
  | true => simp [TFSaver._load_graph, hg, hsv, hse, hp, hc, hnf] at h
  | false =>
    rw [load_graph_eq_ok s fs mp r g se sv pol ckpt hg hsv hse hp hc hnf] at h
    cases r <;>
    · obtain ⟨h1, -⟩ := by simpa using h
      simp [← h1, hg, hsv, hse]

/-- `maybe_load` never clears the registration fields either: on success
the handles are unchanged and the policy stays bound. -/
theorem maybe_load_ok_frame (s : TFSaver) (fs : FS)
    (s' : TFSaver) (ev : List Effect)
    (h : s.maybe_load fs = .ok (s', ev)) :
    s'.graph = s.graph ∧ s'.sess = s.sess ∧ s'.saver = s.saver ∧
    s'.policy.isSome = true := by
  cases hip : s.initialize_path with
  | some p =>
    have h2 : s._load_graph fs p (!s.load) = .ok (s', ev) := by
      simpa [TFSaver.maybe_load, hip] using h
    obtain ⟨a, b, c, -, -, -, -, d⟩ := load_graph_ok_frame _ _ _ _ _ _ h2
    exact ⟨a, b, c, d⟩
  | none =>
    cases hl : s.load with
    | true =>
      have h2 : s._load_graph fs s.model_path (!s.load) = .ok (s', ev) := by
        simpa [TFSaver.maybe_load, hip, hl] using h
      obtain ⟨a, b, c, -, -, -, -, d⟩ := load_graph_ok_frame _ _ _ _ _ _ h2
      exact ⟨a, b, c, d⟩
    | false =>
      cases hp : s.policy with
      | none => simp [TFSaver.maybe_load, hip, hl, hp] at h
      | some pol =>
        have h2 : ({ s with policy := some pol._initialize_graph }, ([] : List Effect)) = (s', ev) := by
          simpa [TFSaver.maybe_load, hip, hl, hp] using h
        obtain ⟨h1, -⟩ := Prod.mk.injEq .. ▸ h2
        simp [← h1]

/- Claim theorems. -/

/-- C1 counterexample: the claim "maybe_load() loads from the
initialization path and resets the step counter to zero, regardless of
the value of the load flag" is false: `demoSaver` has
`initialize_path = some "runs/ft"` and `load = True`; `maybe_load`
does load from `runs/ft` (first log line), but the resulting step counter
is the checkpointed 11, not 0. -/
theorem maybe_load_init_path_counterexample :
    demoSaver.initialize_path = some "runs/ft" ∧
    demoSaver.load = true ∧
    TFSaver.maybe_load demoSaver demoFS = .ok (demoLoadedSaver, demoTraceML) ∧
    demoTraceML.head? = some (Effect.logInfo "Loading model from runs/ft.") ∧
    stepOf demoLoadedSaver = some 11 ∧
    stepOf demoLoadedSaver ≠ some 0 := by
  refine ⟨rfl, rfl, by decide, by decide, by decide, by decide⟩

/-- C1 (amended): for every Saver whose `initialize_path` is set,
`maybe_load()` loads from that initialization path, and it resets the
policy's step counter to zero exactly when the `load` flag is unset —
with `load` set, the step counter comes from the loaded checkpoint. -/
theorem maybe_load_from_init_path (s : TFSaver) (fs : FS) (p : String)
    (hip : s.initialize_path = some p) :
    s.maybe_load fs = s._load_graph fs p (!s.load) ∧
    ∀ s' ev, s.maybe_load fs = .ok (s', ev) →
      (s.load = false → stepOf s' = some 0) ∧
      (s.load = true → ∃ ckpt, getCheckpointState fs p = some ckpt ∧
        stepOf s' = some ckpt.step) := by
  have h1 : s.maybe_load fs = s._load_graph fs p (!s.load) := by
    simp [TFSaver.maybe_load, hip]
  refine ⟨h1, fun s' ev h => ?_⟩
  rw [h1] at h
  obtain ⟨ckpt, hc, -, hstep, -⟩ := load_graph_ok_step _ _ _ _ _ _ h
  constructor
  · intro hl; rw [hl] at hstep; simpa using hstep
  · intro hl; exact ⟨ckpt, hc, by rw [hl] at hstep; simpa using hstep⟩

/-- C1 witness: the amended theorem applied to `demoSaver` (load set):
the step counter after loading equals the checkpointed step. -/
theorem maybe_load_from_init_path_witness :
    ∃ ckpt, getCheckpointState demoFS "runs/ft" = some ckpt ∧
      stepOf demoLoadedSaver = some ckpt.step :=
  ((maybe_load_from_init_path demoSaver demoFS "runs/ft" rfl).2
    demoLoadedSaver demoTraceML (by decide)).2 rfl

/-- C2: the claim is right and the code is wrong. When
`get_checkpoint_state` finds nothing, `_load_graph` executes
`raise UnityPolicyException(...)`, but `UnityPolicyException` is not
bound at module scope of `tf_saver.py` (only `UnityException` is
imported, and it is unused), so the statement raises
`NameError` instead of the documented descriptive exception naming
the path. -/
theorem load_graph_missing_ckpt_bug :
    getCheckpointState demoFS "runs/missing" = none ∧
    TFSaver._load_graph demoSaver demoFS "runs/missing" false =
      .error (PyError.nameError "UnityPolicyException") ∧
    TFSaver.maybe_load { demoSaver with initialize_path := some "runs/missing" } demoFS =
      .error (PyError.nameError "UnityPolicyException") ∧
    "UnityPolicyException" ∉ tf_saver_module_globals ∧
    ∀ msg, PyError.nameError "UnityPolicyException" ≠
      PyError.raisedAs "UnityPolicyException" msg := by
  refine ⟨by decide, by decide, by decide, by decide,
    fun _ h => PyError.noConfusion h⟩

/-- C3: the claim is right and the code is wrong. When the checkpoint
state exists but `saver.restore` raises `tf.errors.NotFoundError`, the
handler executes `raise UnityPolicyException(...)` with a message
distinct from the missing-checkpoint one, but the unbound name again
makes the statement raise `NameError` — neither descriptive nor distinct
from what the missing-checkpoint branch actually raises. -/
theorem load_graph_restore_failure_bug :
    getCheckpointState demoFS2 "runs/old" = some demoBadCkpt ∧
    demoBadCkpt.restoreNotFound = true ∧
    TFSaver._load_graph demoSaver demoFS2 "runs/old" false =
      .error (PyError.nameError "UnityPolicyException") ∧
    restore_failed_msg "runs/old" ≠ missing_ckpt_msg "runs/old" ∧
    ∀ msg, PyError.nameError "UnityPolicyException" ≠
      PyError.raisedAs "UnityPolicyException" msg := by
  refine ⟨by decide, by decide, by decide, by decide,
    fun _ h => PyError.noConfusion h⟩

/-- C4: on a successful restore the checkpointed version tuple is
compared with the current runtime version; on a difference only a warning
effect is emitted — `_check_model_version` is a total function into an
effect list (it cannot raise) — and `_load_graph` still runs to
completion, including the step-reset/resume logic. -/
theorem version_mismatch_warns_only (s : TFSaver) (fs : FS) (mp : String)
    (r : Bool) (g se : Nat) (sv : TrainSaver) (pol : TFPolicy)
    (ckpt : CkptData) (lv : Nat × Nat × Nat)
    (hg : s.graph = some g) (hsv : s.saver = some sv)
    (hse : s.sess = some se) (hp : s.policy = some pol)
    (hc : getCheckpointState fs mp = some ckpt)
    (hnf : ckpt.restoreNotFound = false)
    (hvt : pol.version_tensors.isSome = true)
    (hv : ckpt.version = some lv)
    (hne : lv ≠ _convert_version_string trainers_version) :
    TFSaver._check_model_version (restoredPolicy pol ckpt) trainers_version =
      [Effect.logWarning (version_warning_msg lv trainers_version)] ∧
    ∃ s' ev, s._load_graph fs mp r = .ok (s', ev) ∧
      Effect.logWarning (version_warning_msg lv trainers_version) ∈ ev ∧
      stepOf s' = some (if r then 0 else ckpt.step) := by
  have hver : (restoredPolicy pol ckpt).version_tensors = some lv := by
    simp [restoredPolicy, hvt, hv]
  have hch : TFSaver._check_model_version (restoredPolicy pol ckpt)
      trainers_version =
      [Effect.logWarning (version_warning_msg lv trainers_version)] := by
    simp [TFSaver._check_model_version, hver, hne]
  refine ⟨hch, ?_⟩
  rw [load_graph_eq_ok s fs mp r g se sv pol ckpt hg hsv hse hp hc hnf]
  refine ⟨_, _, rfl, ?_, ?_⟩
  · rw [hch]; simp
  · cases r <;> simp [stepOf, restoredPolicy]

/-- C4 witness: the theorem at `demoSaver`/`demoFS`, whose checkpoint
carries version (0,17,0) while the runtime version parses to (0,18,0). -/
theorem version_mismatch_warns_only_witness :
    TFSaver._check_model_version (restoredPolicy demoPolicy demoCkpt)
      trainers_version =
      [Effect.logWarning (version_warning_msg (0, 17, 0) trainers_version)] ∧
    ∃ s' ev, TFSaver._load_graph demoSaver demoFS "runs/ft" false = .ok (s', ev) ∧
      Effect.logWarning (version_warning_msg (0, 17, 0) trainers_version) ∈ ev ∧
      stepOf s' = some (if false then 0 else demoCkpt.step) :=
  version_mismatch_warns_only demoSaver demoFS "runs/ft" false 1 1 ⟨5⟩
    demoPolicy demoCkpt (0, 17, 0) rfl rfl rfl rfl rfl rfl rfl rfl (by decide)

/-- C5: `maybe_load()` selects exactly one of three branches with this
precedence: with `initialize_path` set it loads from it (whatever the
load flag); else with the load flag set it loads from `model_path`; else
it initializes the policy's graph fresh — with an empty effect trace and
a result independent of the disk state `fs`. -/
theorem maybe_load_branch_selection (s : TFSaver) (fs : FS) :
    (∀ p, s.initialize_path = some p →
      s.maybe_load fs = s._load_graph fs p (!s.load)) ∧
    (s.initialize_path = none → s.load = true →
      s.maybe_load fs = s._load_graph fs s.model_path (!s.load)) ∧
    (s.initialize_path = none → s.load = false →
      ∀ pol, s.policy = some pol →
        s.maybe_load fs = .ok ({ s with policy := some pol._initialize_graph }, [])) := by
  refine ⟨fun p hip => by simp [TFSaver.maybe_load, hip],
          fun hip hl => by simp [TFSaver.maybe_load, hip, hl],
          fun hip hl pol hp => by simp [TFSaver.maybe_load, hip, hl, hp]⟩

/-- C5 witness: the fresh-initialization branch at a concrete
resume-disabled saver — no disk effect, graph freshly initialized. -/
theorem maybe_load_branch_selection_witness :
    TFSaver.maybe_load { demoSaver2 with load := false } demoFS =
      .ok ({ { demoSaver2 with load := false } with
             policy := some demoPolicy._initialize_graph }, []) :=
  (maybe_load_branch_selection { demoSaver2 with load := false } demoFS).2.2
    rfl rfl demoPolicy rfl

/-- C6: `maybe_load()` with the load flag set never resets the step
counter: whichever loading branch is taken, the resulting step counter is
exactly the one stored in the loaded checkpoint. -/
theorem maybe_load_resume_never_resets (s : TFSaver) (fs : FS)
    (hl : s.load = true) (s' : TFSaver) (ev : List Effect)
    (h : s.maybe_load fs = .ok (s', ev)) :
    ∃ ckpt, getCheckpointState fs (s.initialize_path.getD s.model_path) =
        some ckpt ∧
      stepOf s' = some ckpt.step := by
  cases hip : s.initialize_path with
  | some p =>
    have h2 : s._load_graph fs p false = .ok (s', ev) := by
      simpa [TFSaver.maybe_load, hip, hl] using h
    obtain ⟨ckpt, hc, -, hstep, -⟩ := load_graph_ok_step _ _ _ _ _ _ h2
    exact ⟨ckpt, by simpa [hip] using hc, by simpa using hstep⟩
  | none =>
    have h2 : s._load_graph fs s.model_path false = .ok (s', ev) := by
      simpa [TFSaver.maybe_load, hip, hl] using h
    obtain ⟨ckpt, hc, -, hstep, -⟩ := load_graph_ok_step _ _ _ _ _ _ h2
    exact ⟨ckpt, by simpa [hip] using hc, by simpa using hstep⟩

/-- C6 witness: resuming `demoSaver` (load set) from `demoFS` keeps the
checkpointed step. -/
theorem maybe_load_resume_never_resets_witness :
    ∃ ckpt, getCheckpointState demoFS
        (demoSaver.initialize_path.getD demoSaver.model_path) = some ckpt ∧
      stepOf demoLoadedSaver = some ckpt.step :=
  maybe_load_resume_never_resets demoSaver demoFS rfl demoLoadedSaver
    demoTraceML (by decide)

/-- C7: for a registered saver (so `max_to_keep` was set from
`keep_checkpoints`), `save_checkpoint(path, settings)` produces, in
order: the framework checkpoint write at `path + ".ckpt"`, the raw-graph
write of `raw_graph_def.pb` into the configured model directory, and only
then the export with the same path and settings; the checkpoint state of
the checkpoint's directory records the policy's parameters and step, and
the retained checkpoint files number at most `keep_checkpoints`. -/
theorem save_checkpoint_writes_then_exports (s : TFSaver) (fs : FS)
    (p : String) (settings : SerializationSettings)
    (g se : Nat) (sv : TrainSaver) (pol : TFPolicy)
    (hg : s.graph = some g) (hse : s.sess = some se) (hp : s.policy = some pol)
    (hsv : s.saver = some sv) (hk : sv.max_to_keep = s.keep_checkpoints) :
    ∃ fs', s.save_checkpoint fs p settings =
      .ok (fs', [Effect.saveCkpt (p ++ ".ckpt"),
                 Effect.writeGraph s.model_path "raw_graph_def.pb" false,
                 Effect.exportModel p settings.tag]) ∧
      getCheckpointState fs' (dirname (p ++ ".ckpt")) = some
        { model_checkpoint_path := p ++ ".ckpt", params := pol.params,
          step := pol.step, version := pol.version_tensors,
          restoreNotFound := false } ∧
      ∃ kept, fs'.recent.lookup (dirname (p ++ ".ckpt")) = some kept ∧
        kept.length ≤ s.keep_checkpoints := by
  refine ⟨(saverSave sv pol fs (p ++ ".ckpt")).1, ?_, ?_, ?_⟩
  · simp [TFSaver.save_checkpoint, hg, hse, hp, hsv, TFSaver.«export»,
      saverSave]
  · simp [saverSave, getCheckpointState, List.lookup]
  · refine ⟨List.drop
        ((((fs.recent.lookup (dirname (p ++ ".ckpt"))).getD []) ++ [p ++ ".ckpt"]).length
          - sv.max_to_keep)
        (((fs.recent.lookup (dirname (p ++ ".ckpt"))).getD []) ++ [p ++ ".ckpt"]),
      ?_, ?_⟩
    · simp [saverSave, List.lookup]
    · rw [← hk]
      simp only [List.length_drop]
      omega

/-- C7 witness: the theorem at `demoSaver` saving `runs/cur/model-7`. -/
theorem save_checkpoint_writes_then_exports_witness :
    ∃ fs', TFSaver.save_checkpoint demoSaver demoFS "runs/cur/model-7"
        demoSettings =
      .ok (fs', [Effect.saveCkpt ("runs/cur/model-7" ++ ".ckpt"),
                 Effect.writeGraph demoSaver.model_path "raw_graph_def.pb" false,
                 Effect.exportModel "runs/cur/model-7" demoSettings.tag]) ∧
      getCheckpointState fs' (dirname ("runs/cur/model-7" ++ ".ckpt")) = some
        { model_checkpoint_path := "runs/cur/model-7" ++ ".ckpt",
          params := demoPolicy.params, step := demoPolicy.step,
          version := demoPolicy.version_tensors, restoreNotFound := false } ∧
      ∃ kept, fs'.recent.lookup (dirname ("runs/cur/model-7" ++ ".ckpt")) =
          some kept ∧
        kept.length ≤ demoSaver.keep_checkpoints :=
  save_checkpoint_writes_then_exports demoSaver demoFS "runs/cur/model-7"
    demoSettings 1 1 ⟨5⟩ demoPolicy rfl rfl rfl rfl rfl

/-- C8: `register(module)` with `module = None` is a silent no-op —
`register` is a total function (it raises nothing) and every field of the
saver is unchanged — while with a non-`None` module it binds the saver to
that policy instance, copying its graph and session and constructing the
framework saver handle. -/
theorem register_none_noop_some_binds (s : TFSaver) :
    (s.register none = s ∧
      (s.register none).policy = s.policy ∧
      (s.register none).graph = s.graph ∧
      (s.register none).sess = s.sess ∧
      (s.register none).saver = s.saver ∧
      (s.register none).model_path = s.model_path ∧
      (s.register none).initialize_path = s.initialize_path ∧
      (s.register none).keep_checkpoints = s.keep_checkpoints ∧
      (s.register none).load = s.load) ∧
    (∀ m, s.register (some m) =
      { s with policy := some m, graph := some m.graph, sess := some m.sess,
               saver := some { max_to_keep := s.keep_checkpoints } }) := by
  refine ⟨⟨rfl, rfl, rfl, rfl, rfl, rfl, rfl, rfl, rfl⟩, fun m => rfl⟩

/-- C9: round trip — for a registered policy in a resuming configuration
(no initialization path, load flag set, checkpoint directory equal to the
model path), `save_checkpoint` followed by `maybe_load` on the resulting
disk state restores parameter values (and step) identical to those
saved. -/
theorem save_then_load_roundtrip (s : TFSaver) (fs : FS) (p : String)
    (settings : SerializationSettings) (g se : Nat) (sv : TrainSaver)
    (pol : TFPolicy)
    (hg : s.graph = some g) (hse : s.sess = some se) (hp : s.policy = some pol)
    (hsv : s.saver = some sv)
    (hdir : dirname (p ++ ".ckpt") = s.model_path)
    (hip : s.initialize_path = none) (hl : s.load = true)
    (fs' : FS) (ev : List Effect)
    (hsave : s.save_checkpoint fs p settings = .ok (fs', ev)) :
    ∃ s' ev2, s.maybe_load fs' = .ok (s', ev2) ∧
      paramsOf s' = some pol.params ∧ stepOf s' = some pol.step := by
  have hfs : (saverSave sv pol fs (p ++ ".ckpt")).1 = fs' := by
    simp only [TFSaver.save_checkpoint, hg, hse, hp, hsv, Except.ok.injEq,
      Prod.mk.injEq] at hsave
    exact hsave.1
  have hckpt : getCheckpointState fs' s.model_path = some
      { model_checkpoint_path := p ++ ".ckpt", params := pol.params,
        step := pol.step, version := pol.version_tensors,
        restoreNotFound := false } := by
    rw [← hfs, ← hdir]
    simp [saverSave, getCheckpointState, List.lookup]
  have hml : s.maybe_load fs' = s._load_graph fs' s.model_path false := by
    simp [TFSaver.maybe_load, hip, hl]
  rw [hml,
    load_graph_eq_ok s fs' s.model_path false g se sv pol _ hg hsv hse hp
      hckpt rfl]
  exact ⟨_, _, rfl, by simp [paramsOf, restoredPolicy],
    by simp [stepOf, restoredPolicy]⟩

/-- C9 witness: saving `demoSaver2`'s policy to `runs/cur/model-7` and
resuming from `runs/cur` restores parameters `[3, -5]` and step 7. -/
theorem save_then_load_roundtrip_witness :
    ∃ s' ev2, TFSaver.maybe_load demoSaver2 demoFS3 = .ok (s', ev2) ∧
      paramsOf s' = some demoPolicy.params ∧
      stepOf s' = some demoPolicy.step :=
  save_then_load_roundtrip demoSaver2 demoFS "runs/cur/model-7" demoSettings
    1 1 ⟨5⟩ demoPolicy rfl rfl rfl rfl (by decide) rfl rfl demoFS3 demoTrace3
    (by decide)

/-- C10: registration invariant — a freshly constructed saver is
unregistered with `policy`, `graph`, `sess`, `saver` all `None`;
`unregistered` holds exactly when `policy` is `None`; `register` with a
non-`None` module makes all four fields non-`None` and with `None` is the
identity; the loading operations never clear the fields (on success the
handles are unchanged and the policy stays bound, and `save_checkpoint`
does not modify the saver object at all); and `save_checkpoint` and
`_load_graph` fail on a freshly constructed (unregistered) saver, so
registration is their precondition. -/
theorem registration_invariant (bs : BehaviorSpec) (ts : TrainerSettings)
    (mp : String) (ld : Bool) (s : TFSaver) (m : TFPolicy) (fs : FS) :
    ((TFSaver.init bs ts mp ld).unregistered = true ∧
      (TFSaver.init bs ts mp ld).policy = none ∧
      (TFSaver.init bs ts mp ld).graph = none ∧
      (TFSaver.init bs ts mp ld).sess = none ∧
      (TFSaver.init bs ts mp ld).saver = none) ∧
    (s.unregistered = true ↔ s.policy = none) ∧
    ((s.register (some m)).policy = some m ∧
      (s.register (some m)).graph = some m.graph ∧
      (s.register (some m)).sess = some m.sess ∧
      (s.register (some m)).saver = some { max_to_keep := s.keep_checkpoints } ∧
      (s.register (some m)).unregistered = false) ∧
    (s.register none = s) ∧
    (∀ s' ev, s.maybe_load fs = .ok (s', ev) →
      s'.graph = s.graph ∧ s'.sess = s.sess ∧ s'.saver = s.saver ∧
      s'.policy.isSome = true) ∧
    (∀ p r s' ev, s._load_graph fs p r = .ok (s', ev) →
      s'.graph = s.graph ∧ s'.sess = s.sess ∧ s'.saver = s.saver ∧
      s'.policy.isSome = true) ∧
    (∀ p set, ∃ e, (TFSaver.init bs ts mp ld).save_checkpoint fs p set =
      .error e) ∧
    (∀ p r, ∃ e, (TFSaver.init bs ts mp ld)._load_graph fs p r = .error e) := by
  refine ⟨⟨rfl, rfl, rfl, rfl, rfl⟩, ?_, ⟨rfl, rfl, rfl, rfl, rfl⟩, rfl,
    ?_, ?_, ?_, ?_⟩
  · simp [TFSaver.unregistered, Option.isNone_iff_eq_none]
  · exact fun s' ev h => maybe_load_ok_frame s fs s' ev h
  · intro p r s' ev h
    obtain ⟨a, b, c, -, -, -, -, d⟩ := load_graph_ok_frame _ _ _ _ _ _ h
    exact ⟨a, b, c, d⟩
  · intro p set
    exact ⟨_, rfl⟩
  · intro p r
    exact ⟨_, rfl⟩

/-- C10 witness: the frame part of the invariant applied to the concrete
successful load `demoSaver.maybe_load demoFS`. -/
theorem registration_invariant_witness :
    demoLoadedSaver.graph = demoSaver.graph ∧
    demoLoadedSaver.sess = demoSaver.sess ∧
    demoLoadedSaver.saver = demoSaver.saver ∧
    demoLoadedSaver.policy.isSome = true :=
  (registration_invariant ⟨0⟩ { init_path := none, keep_checkpoints := 5 }
      "m" false demoSaver demoPolicy demoFS).2.2.2.2.1
    demoLoadedSaver demoTraceML (by decide)
